import Mathlib

/-!
Verification development for the Krevetka publish scripts.

The repository contains two small Node.js scripts that publish a generated
HTML changelog to the `gh-pages` branch of `BuildersSC/Krevetka`:

* the git republish script (in `src/unnamed/part_000`, after the README):
  checks `GITHUB_TOKEN`, then runs a fixed sequence of `execSync` git
  commands inside a try/catch that prints the error and exits 1;
* `src/publish.js`: reads `docs/index.html` as base64, and calls the
  Octokit `createOrUpdateFileContents` endpoint inside a try/catch that
  prints the error and exits 1.

We embed both scripts shallowly: each run is a pure function from its
environment (token, file system answer, current date, and the outcomes of
the external calls) to the list of observable events it performs, in
order, together with the process exit code.
-/

namespace Krevetka

/-- The request object literal passed to `octokit.repos.createOrUpdateFileContents`
in `publish.js`.  The JavaScript object has exactly the keys `owner`, `repo`,
`path`, `message`, `content`, `branch`; the endpoint also accepts an optional
`sha` key, absent from the literal, which we model as `sha := none`. -/
structure ApiPayload where
  owner : String
  repo : String
  path : String
  message : String
  content : String
  branch : String
  sha : Option String
  deriving DecidableEq, Repr

/-- Observable events of one run: console output, console error output,
a subprocess invocation (`execSync`), a file-system read, and a network
request to the hosting API (carrying the authentication value the Octokit
client was constructed with). -/
inductive Event where
  | logOut (msg : String)
  | logErr (msg : String)
  | execCmd (cmd : String)
  | readFile (path : String)
  | apiRequest (auth : Option String) (payload : ApiPayload)
  deriving DecidableEq, Repr

/-- One statement of the git script body inside the try block: either an
`execSync` call or a `console.log`. -/
inductive Step where
  | execCmd (cmd : String)
  | logOut (msg : String)
  deriving DecidableEq, Repr

/-- The `git config` email command of the git script. -/
def cfgEmailCmd : String :=
  "git config --local user.email \"github-actions[bot]@users.noreply.github.com\""

/-- The `git config` name command of the git script. -/
def cfgNameCmd : String :=
  "git config --local user.name \"github-actions[bot]\""

/-- The commit command of the git script; `date` is the value of
`new Date().toLocaleDateString(ru-RU)`. -/
def commitCmd (date : String) : String :=
  "git commit -m \"Обновление чейнджлога: " ++ date ++ "\""

/-- The `git remote add` command of the git script, embedding the token in
the HTTPS URL. -/
def remoteAddCmd (token : String) : String :=
  "git remote add origin https://" ++ token ++ "@github.com/BuildersSC/Krevetka.git"

/-- The eight git commands of the git script, in source order. -/
def gitCommands (token date : String) : List String :=
  [ "git init",
    "git checkout --orphan gh-pages",
    cfgEmailCmd,
    cfgNameCmd,
    "git add .",
    commitCmd date,
    remoteAddCmd token,
    "git push -f origin gh-pages" ]

/-- The body of the git script's try block, in source order: the eight
`execSync` calls with the `console.log` of the current directory between the
config commands and `git add .`, and the final success `console.log`. -/
def gitSteps (token date cwd : String) : List Step :=
  [ Step.execCmd "git init",
    Step.execCmd "git checkout --orphan gh-pages",
    Step.execCmd cfgEmailCmd,
    Step.execCmd cfgNameCmd,
    Step.logOut ("Текущая директория: " ++ cwd),
    Step.execCmd "git add .",
    Step.execCmd (commitCmd date),
    Step.execCmd (remoteAddCmd token),
    Step.execCmd "git push -f origin gh-pages",
    Step.logOut "Успешно опубликовано на GitHub Pages" ]

/-- Run a list of steps starting at subprocess index `i`.  `outcome j` tells
whether the `j`-th `execSync` call of the run succeeds; a failing call throws,
so the catch handler prints the error (`errText j`) prefixed by the script's
message and the process exits 1.  If every step succeeds the script ends
normally with exit code 0. -/
def runSteps (outcome : Nat → Bool) (errText : Nat → String) :
    Nat → List Step → List Event × Nat
  | _, [] => ([], 0)
  | i, Step.logOut m :: rest =>
      let r := runSteps outcome errText i rest
      (Event.logOut m :: r.1, r.2)
  | i, Step.execCmd c :: rest =>
      if outcome i then
        let r := runSteps outcome errText (i + 1) rest
        (Event.execCmd c :: r.1, r.2)
      else
        ([Event.execCmd c,
          Event.logErr ("Ошибка при публикации: " ++ errText i)], 1)

/-- The whole git republish script: if `GITHUB_TOKEN` is unset it prints the
configuration error and exits 1 before any other action; otherwise it runs
the try-block steps. -/
def runGit (token : Option String) (date cwd : String)
    (outcome : Nat → Bool) (errText : Nat → String) : List Event × Nat :=
  match token with
  | none => ([Event.logErr "Ошибка: GITHUB_TOKEN не установлен"], 1)
  | some tok => runSteps outcome errText 0 (gitSteps tok date cwd)

/-- The subprocess commands appearing in an event trace, in order. -/
def execCmds (events : List Event) : List String :=
  events.filterMap fun e =>
    match e with
    | Event.execCmd c => some c
    | _ => none

/-- Whether an event is a network request to the hosting API. -/
def isApiRequest : Event → Bool
  | Event.apiRequest _ _ => true
  | _ => false

/-- The first API request payload of a trace, if any. -/
def requestOf (r : List Event × Nat) : Option ApiPayload :=
  r.1.findSome? fun e =>
    match e with
    | Event.apiRequest _ p => some p
    | _ => none

/-! ### Base64 (RFC 4648 standard alphabet)

`publish.js` reads the artifact with `fs.readFileSync(filePath, base64)`,
which encodes the file bytes with the standard base64 alphabet and padding.
We define that encoding over byte lists, and its decoder, to state the
round-trip property. -/

/-- The standard base64 alphabet. -/
def b64Alphabet : List Char :=
  "ABCDEFGHIJKLMNOPQRSTUVWXYZabcdefghijklmnopqrstuvwxyz0123456789+/".toList

/-- The alphabet character of a sextet. -/
def b64Char (n : Nat) : Char := b64Alphabet.getD n 'A'

/-- The sextet of an alphabet character, if it is one. -/
def b64Index (c : Char) : Option Nat :=
  b64Alphabet.findIdx? fun a => a == c

/-- Base64-encode a byte list, three bytes to four characters, padding the
final group with `=`. -/
def encodeGroups : List Nat → List Char
  | [] => []
  | [b1] =>
      [b64Char (b1 / 4), b64Char (b1 % 4 * 16), '=', '=']
  | [b1, b2] =>
      [b64Char (b1 / 4), b64Char (b1 % 4 * 16 + b2 / 16),
       b64Char (b2 % 16 * 4), '=']
  | b1 :: b2 :: b3 :: rest =>
      b64Char (b1 / 4) :: b64Char (b1 % 4 * 16 + b2 / 16) ::
      b64Char (b2 % 16 * 4 + b3 / 64) :: b64Char (b3 % 64) ::
      encodeGroups rest

/-- Base64-decode a character list, four characters to up to three bytes.
Padding is accepted only at the end. -/
def decodeGroups : List Char → Option (List Nat)
  | [] => some []
  | c1 :: c2 :: c3 :: c4 :: rest =>
      match b64Index c1, b64Index c2 with
      | some n1, some n2 =>
          if c3 = '=' then
            if c4 = '=' ∧ rest = [] then
              some [n1 * 4 + n2 / 16]
            else none
          else
            match b64Index c3 with
            | some n3 =>
                if c4 = '=' then
                  if rest = [] then
                    some [n1 * 4 + n2 / 16, n2 % 16 * 16 + n3 / 4]
                  else none
                else
                  match b64Index c4, decodeGroups rest with
                  | some n4, some ds =>
                      some ((n1 * 4 + n2 / 16) :: (n2 % 16 * 16 + n3 / 4) ::
                            (n3 % 4 * 64 + n4) :: ds)
                  | _, _ => none
            | none => none
      | _, _ => none
  | _ => none

/-- Base64-encode a byte list to a string, as `fs.readFileSync` with the
base64 encoding does for the file bytes. -/
def base64Encode (bytes : List Nat) : String := String.mk (encodeGroups bytes)

/-- Decode a base64 string back to the byte list it encodes. -/
def base64Decode (s : String) : Option (List Nat) := decodeGroups s.toList

/-- The fixed relative artifact path `path.join("docs", "index.html")` of
`publish.js`. -/
def artifactPath : String := "docs/index.html"

/-- The request object built by `publish.js`: fixed owner, repository, path
and branch, the date-stamped message, the base64 content, and no `sha` key. -/
def apiPayload (contentB64 isoDate : String) : ApiPayload :=
  { owner := "BuildersSC"
    repo := "Krevetka"
    path := "docs/index.html"
    message := "Update ChangeLog on " ++ isoDate
    content := contentB64
    branch := "gh-pages"
    sha := none }

/-- The whole `publish.js` run.  `token` is `process.env.GITHUB_TOKEN` (the
script performs no presence check on it: it only becomes the Octokit client's
auth value).  `fileBytes` is the file system's answer for `docs/index.html`
(`none` when the file is absent or unreadable, making `readFileSync` throw
with error text `fileErrText`).  `isoDate` is the `YYYY-MM-DD` part of
`new Date().toISOString()`.  `apiOk` tells whether the single API request
resolves; a rejection carries error text `apiErrText`.  Any throw lands in
the catch handler, which prints `Upload failed:` with the error and exits 1;
otherwise the script logs success and exits 0. -/
def runApi (token : Option String) (fileBytes : Option (List Nat))
    (isoDate : String) (apiOk : Bool) (fileErrText apiErrText : String) :
    List Event × Nat :=
  match fileBytes with
  | none =>
      ([Event.readFile artifactPath,
        Event.logErr ("Upload failed: " ++ fileErrText)], 1)
  | some bytes =>
      let payload := apiPayload (base64Encode bytes) isoDate
      if apiOk then
        ([Event.readFile artifactPath,
          Event.apiRequest token payload,
          Event.logOut "File uploaded successfully!"], 0)
      else
        ([Event.readFile artifactPath,
          Event.apiRequest token payload,
          Event.logErr ("Upload failed: " ++ apiErrText)], 1)

end Krevetka

namespace Krevetka

/-! ### Helper lemmas -/

/-- The subprocess commands of a step list, in order. -/
def stepCmds (steps : List Step) : List String :=
  steps.filterMap fun s =>
    match s with
    | Step.execCmd c => some c
    | _ => none

/-- Decoding the alphabet character of a sextet recovers the sextet. -/
theorem b64Index_b64Char : ∀ n < 64, b64Index (b64Char n) = some n := by decide

/-- No alphabet character is the padding character. -/
theorem b64Char_ne_pad : ∀ n < 64, b64Char n ≠ '=' := by decide

/-- Base64 round-trip: decoding an encoded byte list recovers it. -/
theorem decodeGroups_encodeGroups :
    ∀ bytes : List Nat, (∀ b ∈ bytes, b < 256) →
      decodeGroups (encodeGroups bytes) = some bytes
  | [], _ => rfl
  | [b1], h => by
      have hb1 : b1 < 256 := h b1 (by simp)
      simp [encodeGroups, decodeGroups,
        b64Index_b64Char _ (by omega : b1 / 4 < 64),
        b64Index_b64Char _ (by omega : b1 % 4 * 16 < 64)]
      omega
  | [b1, b2], h => by
      have hb1 : b1 < 256 := h b1 (by simp)
      have hb2 : b2 < 256 := h b2 (by simp)
      simp [encodeGroups, decodeGroups,
        b64Index_b64Char _ (by omega : b1 / 4 < 64),
        b64Index_b64Char _ (by omega : b1 % 4 * 16 + b2 / 16 < 64),
        b64Index_b64Char _ (by omega : b2 % 16 * 4 < 64),
        b64Char_ne_pad _ (by omega : b2 % 16 * 4 < 64)]
      constructor
      · omega
      · omega
  | b1 :: b2 :: b3 :: rest, h => by
      have hb1 : b1 < 256 := h b1 (by simp)
      have hb2 : b2 < 256 := h b2 (by simp)
      have hb3 : b3 < 256 := h b3 (by simp)
      have ih := decodeGroups_encodeGroups rest
        (fun b hb => h b (by simp [hb]))
      simp [encodeGroups, decodeGroups, ih,
        b64Index_b64Char _ (by omega : b1 / 4 < 64),
        b64Index_b64Char _ (by omega : b1 % 4 * 16 + b2 / 16 < 64),
        b64Index_b64Char _ (by omega : b2 % 16 * 4 + b3 / 64 < 64),
        b64Index_b64Char _ (by omega : b3 % 64 < 64),
        b64Char_ne_pad _ (by omega : b2 % 16 * 4 + b3 / 64 < 64),
        b64Char_ne_pad _ (by omega : b3 % 64 < 64)]
      refine ⟨by omega, by omega, by omega⟩

/-- Every `runSteps` run either ends with exit code 0 and no error output, or
with exit code 1 and some error output; no other exit code arises and no
failure is silent. -/
theorem runSteps_exit_or (outcome : Nat → Bool) (errText : Nat → String) :
    ∀ (i : Nat) (steps : List Step),
      ((runSteps outcome errText i steps).2 = 0 ∧
        ∀ m, Event.logErr m ∉ (runSteps outcome errText i steps).1) ∨
      ((runSteps outcome errText i steps).2 = 1 ∧
        ∃ m, Event.logErr m ∈ (runSteps outcome errText i steps).1)
  | i, [] => Or.inl ⟨rfl, fun m hm => by simp [runSteps] at hm⟩
  | i, Step.logOut s :: rest => by
      have ih := runSteps_exit_or outcome errText i rest
      simp only [runSteps]
      rcases ih with ⟨h0, hn⟩ | ⟨h1, m, hm⟩
      · refine Or.inl ⟨h0, fun m hm => ?_⟩
        rcases List.mem_cons.mp hm with h | h
        · exact Event.noConfusion h
        · exact hn m h
      · exact Or.inr ⟨h1, m, List.mem_cons_of_mem _ hm⟩
  | i, Step.execCmd c :: rest => by
      have ih := runSteps_exit_or outcome errText (i + 1) rest
      cases h : outcome i with
      | true =>
          simp only [runSteps, h, if_true]
          rcases ih with ⟨h0, hn⟩ | ⟨h1, m, hm⟩
          · refine Or.inl ⟨h0, fun m hm => ?_⟩
            rcases List.mem_cons.mp hm with h' | h'
            · exact Event.noConfusion h'
            · exact hn m h'
          · exact Or.inr ⟨h1, m, List.mem_cons_of_mem _ hm⟩
      | false =>
          simp only [runSteps, h, if_false]
          exact Or.inr ⟨rfl, "Ошибка при публикации: " ++ errText i, by simp⟩

/-- If the first `k` subprocess calls succeed and the next one fails, a
`runSteps` run performs exactly the first `k + 1` subprocess commands of the
step list, each once, and none after the failing one. -/
theorem runSteps_take (outcome : Nat → Bool) (errText : Nat → String) :
    ∀ (steps : List Step) (i k : Nat),
      (∀ j, j < k → outcome (i + j) = true) → outcome (i + k) = false →
      execCmds (runSteps outcome errText i steps).1 =
        (stepCmds steps).take (k + 1)
  | [], i, k, _, _ => by simp [runSteps, execCmds, stepCmds]
  | Step.logOut s :: rest, i, k, hpre, hfail => by
      have ih := runSteps_take outcome errText rest i k hpre hfail
      simp only [runSteps, execCmds, stepCmds, List.filterMap_cons] at ih ⊢
      exact ih
  | Step.execCmd c :: rest, i, k, hpre, hfail => by
      cases k with
      | zero =>
          have h0 : outcome i = false := by simpa using hfail
          simp [runSteps, h0, execCmds, stepCmds]
      | succ k =>
          have h0 : outcome i = true := by simpa using hpre 0 (Nat.succ_pos k)
          have ih := runSteps_take outcome errText rest (i + 1) k
            (fun j hj => by
              have := hpre (j + 1) (by omega)
              simpa [Nat.add_assoc, Nat.add_comm 1 j] using this)
            (by simpa [Nat.add_assoc, Nat.add_comm 1 k] using hfail)
          simp only [runSteps, h0, if_true, execCmds, stepCmds,
            List.filterMap_cons, List.take] at ih ⊢
          exact congrArg (c :: ·) ih

/-! ### The claims -/

/-- Claim C1 (counterexample): the claim fails for ApiUploadStrategy.
With `GITHUB_TOKEN` unset but the artifact readable (here the one-byte file
`h`, base64 `aA==`) and the request rejected, `publish.js` still reads the
file and still issues the API request, and the diagnostic printed is the
generic upload failure, not a configuration-error message: `publish.js`
contains no check that the token is set. -/
theorem claim1_counterexample :
    (runApi none (some [104]) "2025-01-01" false "ENOENT" "401").1 =
      [Event.readFile "docs/index.html",
       Event.apiRequest none (apiPayload "aA==" "2025-01-01"),
       Event.logErr "Upload failed: 401"] := rfl

/-- Claim C1 (amended): with the credential unset, GitRepublishStrategy — and
it alone — exits with status 1 after printing the configuration-error message
to standard error, performing no subprocess invocation, no network call and no
file read; ApiUploadStrategy performs no credential check and, whenever the
artifact is readable, still reads the file and issues the API request with an
empty authentication value. -/
theorem claim1_token_unset_amended :
    (∀ date cwd outcome errText,
      runGit none date cwd outcome errText =
        ([Event.logErr "Ошибка: GITHUB_TOKEN не установлен"], 1)) ∧
    (∀ bytes isoDate apiOk f a,
      requestOf (runApi none (some bytes) isoDate apiOk f a) =
        some (apiPayload (base64Encode bytes) isoDate) ∧
      Event.readFile "docs/index.html" ∈ (runApi none (some bytes) isoDate apiOk f a).1) := by
  refine ⟨fun date cwd outcome errText => rfl, fun bytes isoDate apiOk f a => ?_⟩
  cases apiOk <;> exact ⟨rfl, List.mem_cons_self _ _⟩

/-- Claim C2: with the token set, a fully successful GitRepublishStrategy run
executes exactly these eight git commands, in this order and nothing else:
init, orphan checkout of `gh-pages`, the two bot committer config commands,
`git add .`, the date-stamped commit, the remote registration with the
token-embedding HTTPS URL, and the force-push of `gh-pages`. -/
theorem claim2_git_command_sequence (token date cwd : String) (errText : Nat → String) :
    execCmds (runGit (some token) date cwd (fun _ => true) errText).1 =
      [ "git init",
        "git checkout --orphan gh-pages",
        "git config --local user.email \"github-actions[bot]@users.noreply.github.com\"",
        "git config --local user.name \"github-actions[bot]\"",
        "git add .",
        "git commit -m \"Обновление чейнджлога: " ++ date ++ "\"",
        "git remote add origin https://" ++ token ++ "@github.com/BuildersSC/Krevetka.git",
        "git push -f origin gh-pages" ] := rfl

/-- Claim C3: every run of either strategy exits with code 0 and no error
output, or with code 1 and a diagnostic on the error stream — no other exit
code is possible and no failure is silent; and the fully successful runs of
both strategies exit with code 0. -/
theorem claim3_exit_code_contract (token : Option String) (date cwd : String)
    (outcome : Nat → Bool) (errText : Nat → String)
    (tok2 : Option String) (fileBytes : Option (List Nat)) (isoDate : String)
    (apiOk : Bool) (f a : String) (tokS : String) (bytesS : List Nat) :
    (((runGit token date cwd outcome errText).2 = 0 ∧
        ∀ m, Event.logErr m ∉ (runGit token date cwd outcome errText).1) ∨
      ((runGit token date cwd outcome errText).2 = 1 ∧
        ∃ m, Event.logErr m ∈ (runGit token date cwd outcome errText).1)) ∧
    (((runApi tok2 fileBytes isoDate apiOk f a).2 = 0 ∧
        ∀ m, Event.logErr m ∉ (runApi tok2 fileBytes isoDate apiOk f a).1) ∨
      ((runApi tok2 fileBytes isoDate apiOk f a).2 = 1 ∧
        ∃ m, Event.logErr m ∈ (runApi tok2 fileBytes isoDate apiOk f a).1)) ∧
    (runGit (some tokS) date cwd (fun _ => true) errText).2 = 0 ∧
    (runApi tok2 (some bytesS) isoDate true f a).2 = 0 := by
  refine ⟨?_, ?_, rfl, rfl⟩
  · cases token with
    | none => exact Or.inr ⟨rfl, "Ошибка: GITHUB_TOKEN не установлен", by simp [runGit]⟩
    | some tok => exact runSteps_exit_or outcome errText 0 (gitSteps tok date cwd)
  · cases fileBytes with
    | none => exact Or.inr ⟨rfl, "Upload failed: " ++ f, by simp [runApi]⟩
    | some bytes =>
        cases apiOk with
        | true =>
            refine Or.inl ⟨rfl, fun m hm => ?_⟩
            simp [runApi] at hm
        | false => exact Or.inr ⟨rfl, "Upload failed: " ++ a, by simp [runApi]⟩

/-- Claim C4: if the subprocess call at step `k` of GitRepublishStrategy fails
while all earlier ones succeed, the run performs exactly the first `k + 1` git
commands — each once, with no retry — and none of the later ones. -/
theorem claim4_abort_on_first_failure (token date cwd : String)
    (outcome : Nat → Bool) (errText : Nat → String) (k : Nat)
    (_hk : k < 8) (hpre : ∀ j, j < k → outcome j = true) (hfail : outcome k = false) :
    execCmds (runGit (some token) date cwd outcome errText).1 =
      (gitCommands token date).take (k + 1) := by
  have := runSteps_take outcome errText (gitSteps token date cwd) 0 k
    (fun j hj => by simpa using hpre j hj) (by simpa using hfail)
  simpa [runGit, stepCmds, gitSteps, gitCommands] using this

/-- Witness for claim C4: a run whose first two git commands succeed and whose
third fails performs exactly the first three commands. -/
theorem claim4_abort_on_first_failure_witness :
    execCmds (runGit (some "t") "01.01.2025" "/work" (fun j => decide (j < 2)) (fun _ => "err")).1 =
      (gitCommands "t" "01.01.2025").take 3 :=
  claim4_abort_on_first_failure "t" "01.01.2025" "/work" (fun j => decide (j < 2))
    (fun _ => "err") 2 (by decide) (by decide) (by decide)

/-- Claim C5: a successful ApiUploadStrategy run performs exactly one API
request — addressed to owner `BuildersSC`, repository `Krevetka`, path
`docs/index.html`, branch `gh-pages`, with the base64-encoded file content and
the date-stamped message — and nothing else besides the file read and the
success log, exiting 0. -/
theorem claim5_single_api_request (token : String) (bytes : List Nat) (isoDate f a : String) :
    runApi (some token) (some bytes) isoDate true f a =
      ([Event.readFile "docs/index.html",
        Event.apiRequest (some token)
          { owner := "BuildersSC", repo := "Krevetka", path := "docs/index.html",
            message := "Update ChangeLog on " ++ isoDate,
            content := base64Encode bytes, branch := "gh-pages", sha := none },
        Event.logOut "File uploaded successfully!"], 0) ∧
    (runApi (some token) (some bytes) isoDate true f a).1.countP isApiRequest = 1 :=
  ⟨rfl, rfl⟩

/-- Claim C6: with the credential set but the artifact absent or unreadable,
ApiUploadStrategy prints the file-read error and exits 1, and no API request
is issued. -/
theorem claim6_missing_artifact (token : String) (isoDate : String) (apiOk : Bool) (f a : String) :
    runApi (some token) none isoDate apiOk f a =
      ([Event.readFile "docs/index.html",
        Event.logErr ("Upload failed: " ++ f)], 1) ∧
    requestOf (runApi (some token) none isoDate apiOk f a) = none :=
  ⟨rfl, rfl⟩

/-- Claim C7: the commit messages are deterministic functions of the calendar
date in the documented formats: the git run's commit command is
`git commit -m "Обновление чейнджлога: <localized date>"` (the same in any two
runs on the same date, whatever the token, directory or error texts), and the
API run's message is `Update ChangeLog on <YYYY-MM-DD>` (the same in any two
runs on the same date, whatever the token, bytes or request outcome). -/
theorem claim7_commit_message_deterministic (date : String) (tok1 tok2 : String)
    (cwd1 cwd2 : String) (e1 e2 : Nat → String) (tokA tokB : Option String)
    (bytes1 bytes2 : List Nat) (ok1 ok2 : Bool) (f1 a1 f2 a2 : String) :
    (execCmds (runGit (some tok1) date cwd1 (fun _ => true) e1).1)[5]? =
      some ("git commit -m \"Обновление чейнджлога: " ++ date ++ "\"") ∧
    (execCmds (runGit (some tok1) date cwd1 (fun _ => true) e1).1)[5]? =
      (execCmds (runGit (some tok2) date cwd2 (fun _ => true) e2).1)[5]? ∧
    (requestOf (runApi tokA (some bytes1) date ok1 f1 a1)).map ApiPayload.message =
      some ("Update ChangeLog on " ++ date) ∧
    (requestOf (runApi tokA (some bytes1) date ok1 f1 a1)).map ApiPayload.message =
      (requestOf (runApi tokB (some bytes2) date ok2 f2 a2)).map ApiPayload.message := by
  cases ok1 <;> cases ok2 <;> exact ⟨rfl, rfl, rfl, rfl⟩

/-- Claim C8: decoding the base64 text that ApiUploadStrategy sends recovers
exactly the original artifact bytes, and two runs with the same artifact bytes
send identical content. -/
theorem claim8_base64_roundtrip (bytes : List Nat) (h : ∀ b ∈ bytes, b < 256)
    (token1 token2 : Option String) (isoDate : String) (ok1 ok2 : Bool)
    (f1 a1 f2 a2 : String) :
    base64Decode (base64Encode bytes) = some bytes ∧
    (requestOf (runApi token1 (some bytes) isoDate ok1 f1 a1)).map ApiPayload.content =
      (requestOf (runApi token2 (some bytes) isoDate ok2 f2 a2)).map ApiPayload.content := by
  refine ⟨decodeGroups_encodeGroups bytes h, ?_⟩
  cases ok1 <;> cases ok2 <;> rfl

/-- Witness for claim C8: the bytes of `Hello` round-trip through base64, and
two runs on them send identical content. -/
theorem claim8_base64_roundtrip_witness :
    base64Decode (base64Encode [72, 101, 108, 108, 111]) = some [72, 101, 108, 108, 111] ∧
    (requestOf (runApi none (some [72, 101, 108, 108, 111]) "2025-03-01" true "f" "a")).map ApiPayload.content =
      (requestOf (runApi (some "t") (some [72, 101, 108, 108, 111]) "2025-03-01" false "g" "b")).map ApiPayload.content :=
  claim8_base64_roundtrip [72, 101, 108, 108, 111] (by decide) none (some "t")
    "2025-03-01" true false "f" "a" "g" "b"

/-- Claim C9: every request-issuing ApiUploadStrategy run sends exactly the
fields owner, repo, path, message, content and branch, never a prior blob
`sha`, and issues exactly one API request — in particular no preliminary
request resolving the existing file's blob reference. -/
theorem claim9_payload_exact_fields (token : Option String) (bytes : List Nat)
    (isoDate f a : String) (apiOk : Bool) :
    requestOf (runApi token (some bytes) isoDate apiOk f a) =
      some { owner := "BuildersSC", repo := "Krevetka", path := "docs/index.html",
             message := "Update ChangeLog on " ++ isoDate,
             content := base64Encode bytes, branch := "gh-pages", sha := none } ∧
    (runApi token (some bytes) isoDate apiOk f a).1.countP isApiRequest = 1 := by
  cases apiOk <;> exact ⟨rfl, rfl⟩

/-- Claim C10: ApiUploadStrategy's request payload is determined by the
artifact bytes, the calendar date and the credential: two runs with the same
bytes, date and credential build identical payloads, whatever the request
outcomes and error texts. -/
theorem claim10_request_deterministic (token : Option String) (bytes : List Nat)
    (isoDate : String) (ok1 ok2 : Bool) (f1 a1 f2 a2 : String) :
    requestOf (runApi token (some bytes) isoDate ok1 f1 a1) =
      requestOf (runApi token (some bytes) isoDate ok2 f2 a2) ∧
    requestOf (runApi token (some bytes) isoDate ok1 f1 a1) =
      some (apiPayload (base64Encode bytes) isoDate) := by
  cases ok1 <;> cases ok2 <;> exact ⟨rfl, rfl⟩

end Krevetka
